import Mathlib

/-!
Verification of the item CRUD service (`src/main.py`).

A shallow embedding of the FastAPI service in `src/main.py`:

* `generate_id` — the content-and-time hash identifier generator; its call
  to the external `hashlib.sha256(...).hexdigest()` is modelled by a full
  SHA-256 implementation (`sha256`, FIPS 180-4) over UTF-8 bytes
  (`utf8Bytes` models `str.encode()`), with `bytesToHex` for `.hexdigest()`.
* The data model: `Item` (the pydantic response model, `name : str`
  non-nullable), `ItemCreate`, `ItemUpdate` (both pydantic request models,
  optional fields as `Option`), and `DBItem` (the SQLAlchemy row; both
  `name` and `description` columns are nullable, as `mapped_column`
  defaults to nullable).
* The five handlers `create_item`, `read_item`, `read_all_items`,
  `update_item`, `delete_item`, over a store modelled as a list of rows in
  storage order.  `Item(**db_item.__dict__)` is modelled by `returnItem`,
  which fails with a validation error when the row's `name` is null
  (pydantic rejects `None` for a `str` field).
-/

/-! Section: 32-bit word arithmetic on `Nat`. -/

/-- The modulus `2 ^ 32` for 32-bit word arithmetic. -/
def M32 : Nat := 4294967296

/-- Addition modulo `2 ^ 32`. -/
def add32 (a b : Nat) : Nat := (a + b) % M32

/-- Right rotation of a 32-bit word by `n` bits. -/
def rotr32 (x n : Nat) : Nat := ((x >>> n) ||| (x <<< (32 - n))) % M32

/-- Bitwise complement within 32 bits. -/
def not32 (x : Nat) : Nat := x ^^^ 4294967295

/-! Section: SHA-256 (FIPS 180-4), modelling `hashlib.sha256`. -/

/-- SHA-256 choice function. -/
def sha2ch (x y z : Nat) : Nat := (x &&& y) ^^^ (not32 x &&& z)

/-- SHA-256 majority function. -/
def sha2maj (x y z : Nat) : Nat := (x &&& y) ^^^ (x &&& z) ^^^ (y &&& z)

/-- SHA-256 big sigma 0. -/
def bsig0 (x : Nat) : Nat := rotr32 x 2 ^^^ rotr32 x 13 ^^^ rotr32 x 22

/-- SHA-256 big sigma 1. -/
def bsig1 (x : Nat) : Nat := rotr32 x 6 ^^^ rotr32 x 11 ^^^ rotr32 x 25

/-- SHA-256 small sigma 0. -/
def ssig0 (x : Nat) : Nat := rotr32 x 7 ^^^ rotr32 x 18 ^^^ (x >>> 3)

/-- SHA-256 small sigma 1. -/
def ssig1 (x : Nat) : Nat := rotr32 x 17 ^^^ rotr32 x 19 ^^^ (x >>> 10)

/-- The 64 SHA-256 round constants (FIPS 180-4 section 4.2.2, in decimal). -/
def sha2K : List Nat :=
  [1116352408, 1899447441, 3049323471, 3921009573, 961987163, 1508970993,
   2453635748, 2870763221, 3624381080, 310598401, 607225278, 1426881987,
   1925078388, 2162078206, 2614888103, 3248222580, 3835390401, 4022224774,
   264347078, 604807628, 770255983, 1249150122, 1555081692, 1996064986,
   2554220882, 2821834349, 2952996808, 3210313671, 3336571891, 3584528711,
   113926993, 338241895, 666307205, 773529912, 1294757372, 1396182291,
   1695183700, 1986661051, 2177026350, 2456956037, 2730485921, 2820302411,
   3259730800, 3345764771, 3516065817, 3600352804, 4094571909, 275423344,
   430227734, 506948616, 659060556, 883997877, 958139571, 1322822218,
   1537002063, 1747873779, 1955562222, 2024104815, 2227730452, 2361852424,
   2428436474, 2756734187, 3204031479, 3329325298]

/-- The eight working variables of the SHA-256 compression function. -/
structure Hash8 where
  a : Nat
  b : Nat
  c : Nat
  d : Nat
  e : Nat
  f : Nat
  g : Nat
  h : Nat

/-- The SHA-256 initial hash value (FIPS 180-4 section 5.3.3, in decimal). -/
def sha2init : Hash8 :=
  ⟨1779033703, 3144134277, 1013904242, 2773480762,
   1359893119, 2600822924, 528734635, 1541459225⟩

/-- Assemble big-endian 32-bit words from a byte list (4 bytes per word). -/
def toWords : List Nat → List Nat
  | b0 :: b1 :: b2 :: b3 :: rest =>
      ((b0 <<< 24) ||| (b1 <<< 16) ||| (b2 <<< 8) ||| b3) :: toWords rest
  | _ => []

/-- Extend a 16-word message schedule by `n` further words. -/
def extendW (w : List Nat) : Nat → List Nat
  | 0 => w
  | n + 1 =>
      let w' := extendW w n
      let len := w'.length
      w' ++ [add32 (add32 (ssig1 (w'.getD (len - 2) 0)) (w'.getD (len - 7) 0))
                   (add32 (ssig0 (w'.getD (len - 15) 0)) (w'.getD (len - 16) 0))]

/-- The 64-word message schedule of one 512-bit block. -/
def schedule (block : List Nat) : List Nat := extendW (toWords block) 48

/-- One SHA-256 round, consuming one constant/schedule-word pair. -/
def sha2round (s : Hash8) (kw : Nat × Nat) : Hash8 :=
  let t1 := add32 s.h (add32 (bsig1 s.e) (add32 (sha2ch s.e s.f s.g) (add32 kw.1 kw.2)))
  let t2 := add32 (bsig0 s.a) (sha2maj s.a s.b s.c)
  ⟨add32 t1 t2, s.a, s.b, s.c, add32 s.d t1, s.e, s.f, s.g⟩

/-- The SHA-256 compression function on one 64-byte block. -/
def compress (hv : Hash8) (block : List Nat) : Hash8 :=
  let s := (sha2K.zip (schedule block)).foldl sha2round hv
  ⟨add32 hv.a s.a, add32 hv.b s.b, add32 hv.c s.c, add32 hv.d s.d,
   add32 hv.e s.e, add32 hv.f s.f, add32 hv.g s.g, add32 hv.h s.h⟩

/-- The 8 big-endian bytes of a 64-bit length field. -/
def lenBytes (n : Nat) : List Nat :=
  [(n >>> 56) % 256, (n >>> 48) % 256, (n >>> 40) % 256, (n >>> 32) % 256,
   (n >>> 24) % 256, (n >>> 16) % 256, (n >>> 8) % 256, n % 256]

/-- SHA-256 padding: a `0x80` byte, zeros to 56 mod 64, then the bit length. -/
def padBytes (msg : List Nat) : List Nat :=
  let r := (msg.length + 1) % 64
  msg ++ [128] ++ List.replicate ((120 - r) % 64) 0 ++ lenBytes (msg.length * 8)

/-- Split a byte list into 64-byte chunks (structural recursion on fuel). -/
def chunksGo : Nat → List Nat → List (List Nat)
  | 0, _ => []
  | _, [] => []
  | fuel + 1, x :: xs => ((x :: xs).take 64) :: chunksGo fuel ((x :: xs).drop 64)

/-- Split a byte list into 64-byte chunks. -/
def chunks64 (l : List Nat) : List (List Nat) := chunksGo l.length l

/-- The 4 big-endian bytes of one 32-bit word. -/
def wordBytes (x : Nat) : List Nat :=
  [(x >>> 24) % 256, (x >>> 16) % 256, (x >>> 8) % 256, x % 256]

/-- The 32 digest bytes of a final hash state. -/
def hashBytes (hv : Hash8) : List Nat :=
  wordBytes hv.a ++ wordBytes hv.b ++ wordBytes hv.c ++ wordBytes hv.d ++
  wordBytes hv.e ++ wordBytes hv.f ++ wordBytes hv.g ++ wordBytes hv.h

/-- SHA-256 of a byte message: pad, compress each block, emit 32 bytes.
Models the external `hashlib.sha256(...).digest()`. -/
def sha256 (msg : List Nat) : List Nat :=
  hashBytes ((chunks64 (padBytes msg)).foldl compress sha2init)

/-! Section: hex encoding (`.hexdigest()`) and UTF-8 (`str.encode()`). -/

/-- The lowercase hex digit for a value below 16, computed arithmetically the
way CPython renders digests: `0`–`9` from code point 48, `a`–`f` from
code point 87 + the value. -/
def hexChar (n : Nat) : Char := Char.ofNat (if n < 10 then 48 + n else 87 + n)

/-- Whether a character is a lowercase hexadecimal digit (`0`–`9` or
`a`–`f`). -/
def isLowerHexChar (c : Char) : Bool :=
  (48 ≤ c.toNat && c.toNat ≤ 57) || (97 ≤ c.toNat && c.toNat ≤ 102)

/-- The two lowercase hex digits of one byte. -/
def byteToHex (b : Nat) : List Char := [hexChar (b / 16), hexChar (b % 16)]

/-- Lowercase hex encoding of a byte list, as a string (`.hexdigest()`). -/
def bytesToHex (bs : List Nat) : String := String.mk (bs.flatMap byteToHex)

/-- The UTF-8 bytes of one character (RFC 3629). -/
def utf8Char (c : Char) : List Nat :=
  let n := c.toNat
  if n < 0x80 then [n]
  else if n < 0x800 then [0xC0 ||| (n >>> 6), 0x80 ||| (n &&& 0x3F)]
  else if n < 0x10000 then
    [0xE0 ||| (n >>> 12), 0x80 ||| ((n >>> 6) &&& 0x3F), 0x80 ||| (n &&& 0x3F)]
  else
    [0xF0 ||| (n >>> 18), 0x80 ||| ((n >>> 12) &&& 0x3F),
     0x80 ||| ((n >>> 6) &&& 0x3F), 0x80 ||| (n &&& 0x3F)]

/-- The UTF-8 bytes of a string, modelling Python's `str.encode()`. -/
def utf8Bytes (s : String) : List Nat := s.data.flatMap utf8Char

/-! Section: `generate_id` (src/main.py lines 29–31). -/

/-- The interpolated string `f"{name}-{description}-{time.time()}"`, with the
already-rendered wall-clock time `tStr` in the last slot. -/
def rawData (name description tStr : String) : String :=
  name ++ "-" ++ description ++ "-" ++ tStr

/-- Function `generate_id`: the lowercase hex SHA-256 digest of the UTF-8 bytes of
`f"{name}-{description}-{time.time()}"`.  The wall-clock reading is passed in
as its rendered string `tStr`, making the time dependence explicit. -/
def generate_id (name description tStr : String) : String :=
  bytesToHex (sha256 (utf8Bytes (rawData name description tStr)))

/-- Python's f-string rendering of an `Optional[str]`: `None` prints as the
four characters `None`. -/
def pyFormatOpt : Option String → String
  | none => "None"
  | some s => s

/-! Section: the data model (src/main.py lines 12–23, 37–48). -/

/-- The pydantic response model `Item`: `id: str`, `name: str`,
`description: Optional[str]`.  `name` is non-nullable. -/
structure Item where
  id : String
  name : String
  description : Option String
deriving DecidableEq

/-- The pydantic request model `ItemCreate`: `name: str`,
`description: Optional[str]`. -/
structure ItemCreate where
  name : String
  description : Option String
deriving DecidableEq

/-- The pydantic request model `ItemUpdate`: both fields optional; an omitted
field parses to `None`. -/
structure ItemUpdate where
  name : Option String
  description : Option String
deriving DecidableEq

/-- The SQLAlchemy row `DBItem`: columns `id` (primary key), `name`,
`description`.  `mapped_column(String _)` is nullable by default, so `name`
and `description` are `Option String`; the update handler can and does store
`None` in them. -/
structure DBItem where
  id : String
  name : Option String
  description : Option String
deriving DecidableEq

/-- Constructor `DBItem.__init__`: stores `name` and `description` and computes
`id = generate_id(name, description)`; a `None` description reaches the
f-string inside `generate_id` and renders as `"None"`. -/
def DBItem.init (name : String) (description : Option String) (tStr : String) : DBItem :=
  ⟨generate_id name (pyFormatOpt description) tStr, some name, description⟩

/-- The items table, in storage (insertion) order. -/
abbrev Store := List DBItem

/-- What a handler invocation can raise instead of returning:
`httpException` models `raise HTTPException(status_code, detail)`;
`validationError` models a pydantic `ValidationError` escaping the handler
(surfaced by the framework as a 500); `integrityError` models the store
rejecting a duplicate-primary-key insert at commit. -/
inductive HandlerError where
  | httpException (statusCode : Nat) (detail : String)
  | validationError
  | integrityError
deriving DecidableEq

/-- Models `Item(**db_item.__dict__)`: building the response model from a row.
pydantic copies `id`, `name`, `description` (the extra `_sa_instance_state`
key is ignored) and rejects a `None` value for the non-nullable `name`
field, raising a `ValidationError`. -/
def returnItem (d : DBItem) : Except HandlerError Item :=
  match d.name with
  | some n => .ok ⟨d.id, n, d.description⟩
  | none => .error .validationError

/-- Models `db.query(DBItem).filter(DBItem.id == item_id).first()`: the first row in
storage order whose `id` column equals `item_id`, if any. -/
def queryFirst (db : Store) (item_id : String) : Option DBItem :=
  match db with
  | [] => none
  | d :: rest => if d.id = item_id then some d else queryFirst rest item_id

/-- Models `db.query(DBItem).all()`: every row, in storage order.  A query result is
a list, never `None`; the `some` is unconditional. -/
def queryAll (db : Store) : Option (List DBItem) := some db

/-- In-place mutation of the first row with the given id followed by
`db.commit()`: the store with that row replaced by `d'`. -/
def replaceFirst (db : Store) (item_id : String) (d' : DBItem) : Store :=
  match db with
  | [] => []
  | d :: rest =>
      if d.id = item_id then d' :: rest else d :: replaceFirst rest item_id d'

/-- Models `db.delete(db_item); db.commit()`: the store with the first row with the
given id removed. -/
def eraseFirst (db : Store) (item_id : String) : Store :=
  match db with
  | [] => []
  | d :: rest => if d.id = item_id then rest else d :: eraseFirst rest item_id

/-! Section: the handlers (src/main.py lines 78–121).

Each handler is a function of its request data and the pre-state of the
store, returning the response (`Except HandlerError`) together with the
post-state of the store.  `read_item` and `read_all_items` never write, so
they return only the response. -/

/-- Handler for `POST /items` (`create_item`): build a `DBItem` (computing its id), add
and commit it — the store rejects a duplicate primary key at commit, rolling
back — then return `Item(**db_item.__dict__)`. -/
def create_item (item : ItemCreate) (tStr : String) (db : Store) :
    Except HandlerError Item × Store :=
  let db_item := DBItem.init item.name item.description tStr
  if db.any (fun d => d.id == db_item.id) then
    (.error .integrityError, db)
  else
    (returnItem db_item, db ++ [db_item])

/-- Handler for `GET /items/{item_id}` (`read_item`): look up the first row with the id;
raise `HTTPException(404, "Item not found")` when there is none, otherwise
return `Item(**db_item.__dict__)`. -/
def read_item (item_id : String) (db : Store) : Except HandlerError Item :=
  match queryFirst db item_id with
  | none => .error (.httpException 404 "Item not found")
  | some d => returnItem d

/-- Models the list comprehension `[Item(**d.__dict__) for d in db_items]`:
each row in order, raising out of the comprehension at the first row whose
`name` is null. -/
def buildItems : List DBItem → Except HandlerError (List Item)
  | [] => .ok []
  | d :: rest =>
      match returnItem d with
      | .error e => .error e
      | .ok it =>
          match buildItems rest with
          | .error e => .error e
          | .ok l => .ok (it :: l)

/-- Handler for `GET /items` (`read_all_items`): fetch all rows; the defensive
`if db_items is None` branch raises 404, otherwise build
`[Item(**d.__dict__) for d in db_items]`. -/
def read_all_items (db : Store) : Except HandlerError (List Item) :=
  match queryAll db with
  | none => .error (.httpException 404 "Item not found")
  | some db_items => buildItems db_items

/-- Handler for `PUT /items/{item_id}` (`update_item`): look up the first row with the
id; raise 404 when absent; otherwise `setattr` every key of `item.dict()`
(`name` then `description`, `None` included — `id` is not a field of
`ItemUpdate`, so it is never written), commit, and return
`Item(**db_item.__dict__)`. -/
def update_item (item_id : String) (item : ItemUpdate) (db : Store) :
    Except HandlerError Item × Store :=
  match queryFirst db item_id with
  | none => (.error (.httpException 404 "Item not found"), db)
  | some d =>
      let d' : DBItem := ⟨d.id, item.name, item.description⟩
      (returnItem d', replaceFirst db item_id d')

/-- Handler for `DELETE /items/{item_id}` (`delete_item`): look up the first row with the
id; raise 404 when absent; otherwise delete it, commit, and return
`Item(**db_item.__dict__)` built from the already-deleted row. -/
def delete_item (item_id : String) (db : Store) :
    Except HandlerError Item × Store :=
  match queryFirst db item_id with
  | none => (.error (.httpException 404 "Item not found"), db)
  | some d => (returnItem d, eraseFirst db item_id)

/-! Section: operation sequences, for the list-cardinality property. -/

/-- One API call that changes the store: a create or a delete. -/
inductive Op where
  | create (item : ItemCreate) (tStr : String)
  | delete (item_id : String)

/-- Run a sequence of operations, requiring every one of them to succeed
(return `.ok`); the result is the final store, or `none` when some
operation fails. -/
def runOps (db : Store) : List Op → Option Store
  | [] => some db
  | .create item tStr :: rest =>
      match create_item item tStr db with
      | (.ok _, db') => runOps db' rest
      | (.error _, _) => none
  | .delete item_id :: rest =>
      match delete_item item_id db with
      | (.ok _, db') => runOps db' rest
      | (.error _, _) => none

/-- The number of create operations in a sequence. -/
def countCreates : List Op → Nat
  | [] => 0
  | .create _ _ :: rest => countCreates rest + 1
  | .delete _ :: rest => countCreates rest

/-- The number of delete operations in a sequence. -/
def countDeletes : List Op → Nat
  | [] => 0
  | .create _ _ :: rest => countDeletes rest
  | .delete _ :: rest => countDeletes rest + 1

/-! Section: shape of the generated identifiers. -/

/-- Hex-encoding a byte list yields two characters per byte. -/
theorem length_flatMap_byteToHex (bs : List Nat) :
    (bs.flatMap byteToHex).length = 2 * bs.length := by
  induction bs with
  | nil => simp
  | cons b rest ih => simp [byteToHex, ih]; omega

/-- The length of a string built from a character list is the list length. -/
theorem stringmk_length (l : List Char) : (String.mk l).length = l.length := rfl

/-- A SHA-256 digest is 32 bytes long. -/
theorem sha256_length (msg : List Nat) : (sha256 msg).length = 32 := by
  simp [sha256, hashBytes, wordBytes]

/-- Each of the four big-endian bytes of a word is below 256. -/
theorem wordBytes_lt (x : Nat) : ∀ b ∈ wordBytes x, b < 256 := by
  intro b hb
  simp [wordBytes] at hb
  rcases hb with h | h | h | h <;> subst h <;> exact Nat.mod_lt _ (by norm_num)

/-- Each byte of a SHA-256 digest is below 256. -/
theorem sha256_lt (msg : List Nat) : ∀ b ∈ sha256 msg, b < 256 := by
  intro b hb
  simp [sha256, hashBytes] at hb
  rcases hb with h | h | h | h | h | h | h | h <;> exact wordBytes_lt _ _ h

/-- The hex digit of a value below 16 is a lowercase hexadecimal digit. -/
theorem hexChar_hex {n : Nat} (h : n < 16) : isLowerHexChar (hexChar n) = true := by
  unfold hexChar isLowerHexChar
  interval_cases n <;> decide

/-- Every character of the hex encoding of a byte list is a lowercase hex
digit. -/
theorem flatMap_byteToHex_all_hex : ∀ bs : List Nat, (∀ b ∈ bs, b < 256) →
    (bs.flatMap byteToHex).all isLowerHexChar = true := by
  intro bs
  induction bs with
  | nil => intro _; simp
  | cons b rest ih =>
    intro h
    have hb : b < 256 := h b (by simp)
    have hdiv : b / 16 < 16 := Nat.div_lt_of_lt_mul (by omega)
    have hmod : b % 16 < 16 := Nat.mod_lt _ (by norm_num)
    simp [byteToHex, ih (fun x hx => h x (by simp [hx])),
      hexChar_hex hdiv, hexChar_hex hmod]

/-- A generated identifier is 64 characters long. -/
theorem generate_id_length (name description tStr : String) :
    (generate_id name description tStr).length = 64 := by
  unfold generate_id bytesToHex
  rw [stringmk_length, length_flatMap_byteToHex, sha256_length]

/-- Every character of a generated identifier is a lowercase hex digit. -/
theorem generate_id_all_hex (name description tStr : String) :
    (generate_id name description tStr).data.all isLowerHexChar = true := by
  unfold generate_id bytesToHex
  exact flatMap_byteToHex_all_hex _ (sha256_lt _)

/-! Section: lookup, replace and erase on the store. -/

/-- A lookup misses exactly when no row has the id. -/
theorem queryFirst_eq_none_iff (db : Store) (i : String) :
    queryFirst db i = none ↔ ∀ d ∈ db, d.id ≠ i := by
  induction db with
  | nil => simp [queryFirst]
  | cons d rest ih =>
    by_cases h : d.id = i
    · simp [queryFirst, h]
    · simp [queryFirst, h, ih]

/-- A found row is a member of the store and carries the looked-up id. -/
theorem queryFirst_some {db : Store} {i : String} {d : DBItem}
    (h : queryFirst db i = some d) : d ∈ db ∧ d.id = i := by
  induction db with
  | nil => simp [queryFirst] at h
  | cons d' rest ih =>
    by_cases hid : d'.id = i
    · simp [queryFirst, hid] at h
      subst h
      exact ⟨by simp, hid⟩
    · simp only [queryFirst, hid, if_false] at h
      obtain ⟨hmem, hi⟩ := ih h
      exact ⟨by simp [hmem], hi⟩

/-- A lookup that misses the front of an appended store searches the back. -/
theorem queryFirst_append_right {db : Store} (l : Store) {i : String}
    (h : queryFirst db i = none) : queryFirst (db ++ l) i = queryFirst l i := by
  induction db with
  | nil => simp
  | cons d rest ih =>
    by_cases hid : d.id = i
    · simp [queryFirst, hid] at h
    · simp only [queryFirst, hid, if_false] at h
      simp only [List.cons_append, queryFirst, hid, if_false]
      exact ih h

/-- Looking up the id of the front row finds it. -/
theorem queryFirst_cons_self (d : DBItem) (rest : Store) :
    queryFirst (d :: rest) d.id = some d := by
  unfold queryFirst
  simp

/-- After replacing the first row with a given id by a row carrying that id,
a lookup of the id finds the replacement. -/
theorem replaceFirst_query {db : Store} {i : String} {d : DBItem} (d' : DBItem)
    (h : queryFirst db i = some d) (hd' : d'.id = i) :
    queryFirst (replaceFirst db i d') i = some d' := by
  induction db with
  | nil => simp [queryFirst] at h
  | cons e rest ih =>
    by_cases hid : e.id = i
    · simp [replaceFirst, hid, queryFirst, hd']
    · simp only [queryFirst, hid, if_false] at h
      simp only [replaceFirst, hid, if_false, queryFirst]
      exact ih h

/-- Erasing a row that is present shrinks the store by one. -/
theorem eraseFirst_length {db : Store} {i : String} {d : DBItem}
    (h : queryFirst db i = some d) : (eraseFirst db i).length + 1 = db.length := by
  induction db with
  | nil => simp [queryFirst] at h
  | cons e rest ih =>
    by_cases hid : e.id = i
    · simp [eraseFirst, hid]
    · simp only [queryFirst, hid, if_false] at h
      simp only [eraseFirst, hid, if_false, List.length_cons]
      rw [← ih h]

/-- Every row of the erased store was a row of the original. -/
theorem mem_eraseFirst {db : Store} {i : String} {d : DBItem}
    (h : d ∈ eraseFirst db i) : d ∈ db := by
  induction db with
  | nil => simp [eraseFirst] at h
  | cons e rest ih =>
    by_cases hid : e.id = i
    · simp only [eraseFirst, hid, if_true] at h
      simp [h]
    · simp only [eraseFirst, hid, if_false] at h
      rcases List.mem_cons.mp h with h1 | h2
      · simp [h1]
      · simp [ih h2]

/-- When ids are unique (the primary-key invariant), erasing an id removes
every trace of it: a subsequent lookup misses. -/
theorem eraseFirst_query_none {db : Store} (i : String)
    (h : (db.map DBItem.id).Nodup) : queryFirst (eraseFirst db i) i = none := by
  induction db with
  | nil => simp [eraseFirst, queryFirst]
  | cons e rest ih =>
    simp only [List.map_cons, List.nodup_cons] at h
    by_cases hid : e.id = i
    · simp only [eraseFirst, hid, if_true]
      rw [queryFirst_eq_none_iff]
      intro d hd hdi
      have hm : d.id ∈ List.map DBItem.id rest := List.mem_map_of_mem DBItem.id hd
      rw [hdi, ← hid] at hm
      exact absurd hm h.1
    · simp only [eraseFirst, hid, if_false, queryFirst, if_neg hid]
      exact ih h.2

/-- The duplicate-key probe is negative when no row carries the id. -/
theorem any_id_eq_false {db : Store} {x : String}
    (h : ∀ d ∈ db, d.id ≠ x) : db.any (fun d => d.id == x) = false := by
  rw [List.any_eq_false]
  intro d hd
  simpa using h d hd

/-! Section: response construction and the list comprehension. -/

/-- Building the response model from a row with a non-null name succeeds. -/
theorem returnItem_some {d : DBItem} {n : String} (h : d.name = some n) :
    returnItem d = .ok ⟨d.id, n, d.description⟩ := by
  unfold returnItem
  rw [h]

/-- Building the response model from a row with a null name raises a
validation error. -/
theorem returnItem_none {d : DBItem} (h : d.name = none) :
    returnItem d = .error .validationError := by
  unfold returnItem
  rw [h]

/-- The only error the comprehension can raise is a validation error —
never an `HTTPException`. -/
theorem buildItems_error {l : List DBItem} {e : HandlerError}
    (h : buildItems l = .error e) : e = .validationError := by
  induction l with
  | nil => simp [buildItems] at h
  | cons d rest ih =>
    unfold buildItems at h
    cases hr : returnItem d with
    | error e' =>
      rw [hr] at h
      cases hd : d.name with
      | some n => rw [returnItem_some hd] at hr; cases hr
      | none =>
        rw [returnItem_none hd] at hr
        cases hr
        cases h
        rfl
    | ok it =>
      rw [hr] at h
      cases hb : buildItems rest with
      | error e' =>
        rw [hb] at h
        cases h
        exact ih hb
      | ok its => rw [hb] at h; cases h

/-- When every row's name is non-null, the comprehension succeeds and
produces one response item per row, in order, copying the fields. -/
theorem buildItems_ok : ∀ l : List DBItem, (∀ d ∈ l, d.name ≠ none) →
    ∃ its, buildItems l = .ok its ∧
      List.Forall₂ (fun (d : DBItem) (it : Item) =>
        it.id = d.id ∧ d.name = some it.name ∧ it.description = d.description) l its := by
  intro l
  induction l with
  | nil => intro _; exact ⟨[], rfl, List.Forall₂.nil⟩
  | cons d rest ih =>
    intro h
    obtain ⟨its, hits, hrel⟩ := ih (fun x hx => h x (by simp [hx]))
    cases hd : d.name with
    | none => exact absurd hd (h d (by simp))
    | some n =>
      refine ⟨⟨d.id, n, d.description⟩ :: its, ?_, ?_⟩
      · unfold buildItems
        rw [returnItem_some hd, hits]
      · exact List.Forall₂.cons ⟨rfl, hd, rfl⟩ hrel

/-- A freshly constructed row serializes to the freshly generated id with
the supplied fields. -/
theorem returnItem_init (name : String) (description : Option String) (tStr : String) :
    returnItem (DBItem.init name description tStr)
      = .ok ⟨generate_id name (pyFormatOpt description) tStr, name, description⟩ := rfl

/-- When the generated id is fresh, the create handler succeeds, appends the
new row, and returns it. -/
theorem create_item_fresh {item : ItemCreate} {tStr : String} {db : Store}
    (h : ∀ d ∈ db, d.id ≠ generate_id item.name (pyFormatOpt item.description) tStr) :
    create_item item tStr db =
      (.ok ⟨generate_id item.name (pyFormatOpt item.description) tStr,
            item.name, item.description⟩,
       db ++ [DBItem.init item.name item.description tStr]) := by
  have ha := any_id_eq_false h
  unfold create_item
  simp only [DBItem.init, ha, Bool.false_eq_true, if_false]
  rfl

/-! Section: bookkeeping along operation sequences. -/

/-- Each successful operation changes the store size by exactly one: the
final size plus the deletes equals the initial size plus the creates. -/
theorem runOps_length : ∀ (ops : List Op) (db db' : Store), runOps db ops = some db' →
    db'.length + countDeletes ops = db.length + countCreates ops := by
  intro ops
  induction ops with
  | nil =>
    intro db db' h
    simp [runOps] at h
    subst h
    simp [countCreates, countDeletes]
  | cons op rest ih =>
    intro db db' h
    cases op with
    | create item tStr =>
      unfold runOps at h
      rcases hc : create_item item tStr db with ⟨res, db1⟩
      rw [hc] at h
      cases res with
      | error e => simp at h
      | ok it =>
        simp only [create_item] at hc
        split at hc
        · rw [Prod.mk.injEq] at hc
          cases hc.1
        · rw [Prod.mk.injEq] at hc
          have hdb1 : db1 = db ++ [DBItem.init item.name item.description tStr] := hc.2.symm
          subst hdb1
          have hrec := ih _ db' h
          simp only [countCreates, countDeletes, List.length_append, List.length_cons,
            List.length_nil] at hrec ⊢
          omega
    | delete i =>
      unfold runOps at h
      rcases hc : delete_item i db with ⟨res, db1⟩
      rw [hc] at h
      cases res with
      | error e => simp at h
      | ok it =>
        unfold delete_item at hc
        cases hq : queryFirst db i with
        | none =>
          rw [hq] at hc
          rw [Prod.mk.injEq] at hc
          cases hc.1
        | some d =>
          rw [hq] at hc
          rw [Prod.mk.injEq] at hc
          have hdb1 : db1 = eraseFirst db i := hc.2.symm
          subst hdb1
          have hlen := eraseFirst_length hq
          have hrec := ih _ db' h
          simp only [countCreates, countDeletes] at hrec ⊢
          omega

/-- Successful operations preserve the all-names-non-null invariant: creates
insert a named row, deletes only remove rows. -/
theorem runOps_named : ∀ (ops : List Op) (db db' : Store),
    (∀ d ∈ db, d.name ≠ none) → runOps db ops = some db' →
    ∀ d ∈ db', d.name ≠ none := by
  intro ops
  induction ops with
  | nil =>
    intro db db' hnm h
    simp [runOps] at h
    subst h
    exact hnm
  | cons op rest ih =>
    intro db db' hnm h
    cases op with
    | create item tStr =>
      unfold runOps at h
      rcases hc : create_item item tStr db with ⟨res, db1⟩
      rw [hc] at h
      cases res with
      | error e => simp at h
      | ok it =>
        simp only [create_item] at hc
        split at hc
        · rw [Prod.mk.injEq] at hc
          cases hc.1
        · rw [Prod.mk.injEq] at hc
          have hdb1 : db1 = db ++ [DBItem.init item.name item.description tStr] := hc.2.symm
          subst hdb1
          refine ih _ db' ?_ h
          intro d hd
          rcases List.mem_append.mp hd with h1 | h2
          · exact hnm d h1
          · simp only [List.mem_singleton] at h2
            subst h2
            simp [DBItem.init]
    | delete i =>
      unfold runOps at h
      rcases hc : delete_item i db with ⟨res, db1⟩
      rw [hc] at h
      cases res with
      | error e => simp at h
      | ok it =>
        unfold delete_item at hc
        cases hq : queryFirst db i with
        | none =>
          rw [hq] at hc
          rw [Prod.mk.injEq] at hc
          cases hc.1
        | some d =>
          rw [hq] at hc
          rw [Prod.mk.injEq] at hc
          have hdb1 : db1 = eraseFirst db i := hc.2.symm
          subst hdb1
          exact ih _ db' (fun d' hd' => hnm d' (mem_eraseFirst hd')) h

/-! Section: the claims. -/

/-- C8: for every name string, description string and rendered wall-clock
timestamp, `generate_id` returns the lowercase hexadecimal encoding of the
SHA-256 digest of the UTF-8 bytes of the interpolated string
`"{name}-{description}-{t}"`, and the result is always a 64-character string
of lowercase hex digits — the function is total, with no error conditions. -/
theorem generate_id_spec (name description tStr : String) :
    generate_id name description tStr
      = bytesToHex (sha256 (utf8Bytes (rawData name description tStr))) ∧
    (generate_id name description tStr).length = 64 ∧
    (generate_id name description tStr).data.all isLowerHexChar = true :=
  ⟨rfl, generate_id_length name description tStr, generate_id_all_hex name description tStr⟩

/-- C1: create-then-read round trip.  When the generated id is fresh for the
store (the no-collision regime; a colliding insert is rejected by the primary
key, a case the spec leaves unspecified), creating an item succeeds, the
returned record's id is a 64-character lowercase hex string, and a subsequent
read-one of that id returns a record with exactly the name and description
supplied at creation. -/
theorem create_then_read_roundtrip (db : Store) (name : String)
    (description : Option String) (tStr : String)
    (hfresh : ∀ d ∈ db, d.id ≠ generate_id name (pyFormatOpt description) tStr) :
    ∃ it : Item,
      create_item ⟨name, description⟩ tStr db
        = (.ok it, db ++ [DBItem.init name description tStr]) ∧
      it.id.length = 64 ∧
      it.id.data.all isLowerHexChar = true ∧
      it.name = name ∧
      it.description = description ∧
      read_item it.id (db ++ [DBItem.init name description tStr]) = .ok it := by
  refine ⟨⟨generate_id name (pyFormatOpt description) tStr, name, description⟩,
    create_item_fresh hfresh, generate_id_length name (pyFormatOpt description) tStr,
    generate_id_all_hex name (pyFormatOpt description) tStr, rfl, rfl, ?_⟩
  have hq : queryFirst [DBItem.init name description tStr]
      (generate_id name (pyFormatOpt description) tStr)
      = some (DBItem.init name description tStr) := by
    unfold queryFirst DBItem.init
    simp
  unfold read_item
  rw [queryFirst_append_right [DBItem.init name description tStr]
    ((queryFirst_eq_none_iff db _).mpr hfresh), hq]
  rfl

/-- Witness for C1: creating `("foo", "bar")` in the empty store at timestamp
`"1.5"` and reading the result back. -/
theorem create_then_read_roundtrip_witness :
    (∀ d ∈ ([] : Store), d.id ≠ generate_id "foo" (pyFormatOpt (some "bar")) "1.5") ∧
    (∃ it : Item,
      create_item ⟨"foo", some "bar"⟩ "1.5" []
        = (.ok it, [] ++ [DBItem.init "foo" (some "bar") "1.5"]) ∧
      it.id.length = 64 ∧
      it.id.data.all isLowerHexChar = true ∧
      it.name = "foo" ∧
      it.description = some "bar" ∧
      read_item it.id ([] ++ [DBItem.init "foo" (some "bar") "1.5"]) = .ok it) :=
  ⟨by simp, create_then_read_roundtrip [] "foo" (some "bar") "1.5" (by simp)⟩

/-- C2 counterexample: in the store holding the single row
`(id "a", name NULL, description NULL)` — a state reachable through an update
whose name field is null — the row with id `"a"` is present, yet reading it
produces a validation error (surfaced by the framework as a 500), not the
record with status 200; so "if a record with that id is present it is
returned" fails for this store state. -/
theorem read_item_present_error_counterexample :
    queryFirst [⟨"a", none, none⟩] "a" = some ⟨"a", none, none⟩ ∧
    read_item "a" [⟨"a", none, none⟩] = .error .validationError := ⟨rfl, rfl⟩

/-- C2 (amended): the read-one handler raises 404 "Item not found" exactly
when no row with the id exists; a present row whose stored name is non-null
is returned with its fields; a present row with a null stored name instead
makes the response construction fail with a validation error (a 500), never
the 404. -/
theorem read_item_notfound_iff_absent (db : Store) (i : String) :
    (queryFirst db i = none ↔
      read_item i db = .error (.httpException 404 "Item not found")) ∧
    (∀ d n, queryFirst db i = some d → d.name = some n →
      read_item i db = .ok ⟨d.id, n, d.description⟩) ∧
    (∀ d, queryFirst db i = some d → d.name = none →
      read_item i db = .error .validationError) := by
  refine ⟨⟨?_, ?_⟩, ?_, ?_⟩
  · intro h
    unfold read_item
    rw [h]
  · intro h
    cases hq : queryFirst db i with
    | none => rfl
    | some d =>
      unfold read_item at h
      rw [hq] at h
      have h' : returnItem d = .error (.httpException 404 "Item not found") := h
      cases hd : d.name with
      | some n => rw [returnItem_some hd] at h'; cases h'
      | none => rw [returnItem_none hd] at h'; simp at h'
  · intro d n hq hd
    unfold read_item
    rw [hq]
    show returnItem d = _
    rw [returnItem_some hd]
  · intro d hq hd
    unfold read_item
    rw [hq]
    show returnItem d = _
    rw [returnItem_none hd]

/-- Witness for the amended C2 theorem: a present named row is returned, an
absent id yields the 404. -/
theorem read_item_notfound_iff_absent_witness :
    read_item "a" [⟨"a", some "n", some "d"⟩] = .ok ⟨"a", "n", some "d"⟩ ∧
    read_item "b" [⟨"a", some "n", some "d"⟩]
      = .error (.httpException 404 "Item not found") :=
  ⟨(read_item_notfound_iff_absent [⟨"a", some "n", some "d"⟩] "a").2.1
      ⟨"a", some "n", some "d"⟩ "n" rfl rfl,
   (read_item_notfound_iff_absent [⟨"a", some "n", some "d"⟩] "b").1.mp rfl⟩

/-- C3 counterexample: updating the existing row `"a"` with both fields
omitted/null (`ItemUpdate(name=None, description=None)`) persists the nulls
into the store, but the handler then fails with a validation error instead of
returning the updated record — refuting "… and returns the updated record"
as a statement about every update request. -/
theorem update_item_null_name_counterexample :
    queryFirst [⟨"a", some "x", some "y"⟩] "a" = some ⟨"a", some "x", some "y"⟩ ∧
    update_item "a" ⟨none, none⟩ [⟨"a", some "x", some "y"⟩]
      = (.error .validationError, [⟨"a", none, none⟩]) := ⟨rfl, rfl⟩

/-- C3 (amended): the update handler raises 404 when the id is absent and
leaves the store unchanged; when the id is present it overwrites both fields
with exactly the request values — a field omitted from the request is an
explicit null and overwrites the stored value — and persists the result, so a
subsequent lookup sees the new values; it returns the updated record when the
request's name is non-null, and fails with a validation error (a 500, with
the nulls nevertheless persisted) when the name is null or omitted. -/
theorem update_item_overwrite_spec (db : Store) (i : String) (upd : ItemUpdate) :
    (queryFirst db i = none →
      update_item i upd db = (.error (.httpException 404 "Item not found"), db)) ∧
    (∀ d, queryFirst db i = some d →
      (update_item i upd db).2 = replaceFirst db i ⟨d.id, upd.name, upd.description⟩ ∧
      queryFirst (update_item i upd db).2 i = some ⟨d.id, upd.name, upd.description⟩ ∧
      (∀ n, upd.name = some n →
        (update_item i upd db).1 = .ok ⟨d.id, n, upd.description⟩) ∧
      (upd.name = none → (update_item i upd db).1 = .error .validationError)) := by
  constructor
  · intro h
    unfold update_item
    rw [h]
  · intro d hq
    have hid := (queryFirst_some hq).2
    unfold update_item
    rw [hq]
    refine ⟨rfl, ?_, ?_, ?_⟩
    · exact replaceFirst_query ⟨d.id, upd.name, upd.description⟩ hq hid
    · intro n hn
      exact returnItem_some hn
    · intro hn
      exact returnItem_none hn

/-- Witness for the amended C3 theorem: an update with a non-null name
overwrites, persists and returns the record; an absent id yields the 404. -/
theorem update_item_overwrite_spec_witness :
    queryFirst (update_item "a" ⟨some "u", none⟩ [⟨"a", some "x", some "y"⟩]).2 "a"
      = some ⟨"a", some "u", none⟩ ∧
    (update_item "a" ⟨some "u", none⟩ [⟨"a", some "x", some "y"⟩]).1
      = .ok ⟨"a", "u", none⟩ ∧
    update_item "b" ⟨some "u", none⟩ [⟨"a", some "x", some "y"⟩]
      = (.error (.httpException 404 "Item not found"), [⟨"a", some "x", some "y"⟩]) :=
  ⟨((update_item_overwrite_spec [⟨"a", some "x", some "y"⟩] "a" ⟨some "u", none⟩).2
      ⟨"a", some "x", some "y"⟩ rfl).2.1,
   ((update_item_overwrite_spec [⟨"a", some "x", some "y"⟩] "a" ⟨some "u", none⟩).2
      ⟨"a", some "x", some "y"⟩ rfl).2.2.1 "u" rfl,
   (update_item_overwrite_spec [⟨"a", some "x", some "y"⟩] "b" ⟨some "u", none⟩).1 rfl⟩

/-- C4: id immutability under update: a successful update returns a record
whose id equals the pre-update row's id, and the row stored afterwards under
that id still carries it — `ItemUpdate` has no id field, so the setattr loop
can never write the primary key. -/
theorem update_item_id_immutable (db : Store) (i : String) (upd : ItemUpdate)
    (d : DBItem) (hq : queryFirst db i = some d) :
    ∀ it db', update_item i upd db = (.ok it, db') →
      it.id = d.id ∧ ∃ d', queryFirst db' i = some d' ∧ d'.id = d.id := by
  intro it db' h
  have hid := (queryFirst_some hq).2
  unfold update_item at h
  rw [hq] at h
  have h' : (returnItem ⟨d.id, upd.name, upd.description⟩,
      replaceFirst db i ⟨d.id, upd.name, upd.description⟩) = (.ok it, db') := h
  rw [Prod.mk.injEq] at h'
  cases hn : upd.name with
  | none =>
    rw [returnItem_none (show DBItem.name ⟨d.id, upd.name, upd.description⟩ = none
      from hn)] at h'
    cases h'.1
  | some n =>
    have h1 := h'.1
    rw [returnItem_some (show DBItem.name ⟨d.id, upd.name, upd.description⟩ = some n
      from hn)] at h1
    cases h1
    refine ⟨rfl, ⟨d.id, upd.name, upd.description⟩, ?_, rfl⟩
    rw [← h'.2]
    exact replaceFirst_query ⟨d.id, upd.name, upd.description⟩ hq hid

/-- Witness for C4 at a concrete one-row store and update. -/
theorem update_item_id_immutable_witness :
    (⟨"a", "y", some "z"⟩ : Item).id = (⟨"a", some "x", none⟩ : DBItem).id ∧
    ∃ d', queryFirst [⟨"a", some "y", some "z"⟩] "a" = some d' ∧
      d'.id = (⟨"a", some "x", none⟩ : DBItem).id :=
  update_item_id_immutable [⟨"a", some "x", none⟩] "a" ⟨some "y", some "z"⟩
    ⟨"a", some "x", none⟩ rfl ⟨"a", "y", some "z"⟩ [⟨"a", some "y", some "z"⟩] rfl

/-- C5 counterexample: deleting the row `(id "a", name NULL)` removes it from
the store, but the echo of the deleted values fails with a validation error
instead of returning them — refuting "otherwise it … returns the deleted
record's pre-deletion field values" for every present row. -/
theorem delete_item_null_name_counterexample :
    queryFirst [⟨"a", none, none⟩] "a" = some ⟨"a", none, none⟩ ∧
    delete_item "a" [⟨"a", none, none⟩] = (.error .validationError, []) := ⟨rfl, rfl⟩

/-- C5 (amended): the delete handler raises 404 when the id is absent;
when a row is present it removes that row and echoes its pre-deletion field
values when the stored name is non-null (failing with a validation error —
the removal already committed — when the name is null); and when store ids
are unique, as the primary key guarantees, a second delete of the same id
raises 404 rather than succeeding. -/
theorem delete_item_spec (db : Store) (i : String) :
    (queryFirst db i = none →
      delete_item i db = (.error (.httpException 404 "Item not found"), db)) ∧
    (∀ d, queryFirst db i = some d →
      (delete_item i db).2 = eraseFirst db i ∧
      (∀ n, d.name = some n →
        (delete_item i db).1 = .ok ⟨d.id, n, d.description⟩) ∧
      (d.name = none → (delete_item i db).1 = .error .validationError) ∧
      ((db.map DBItem.id).Nodup →
        delete_item i (eraseFirst db i)
          = (.error (.httpException 404 "Item not found"), eraseFirst db i))) := by
  constructor
  · intro h
    unfold delete_item
    rw [h]
  · intro d hq
    refine ⟨?_, ?_, ?_, ?_⟩
    · unfold delete_item
      rw [hq]
    · intro n hn
      unfold delete_item
      rw [hq]
      show returnItem d = _
      rw [returnItem_some hn]
    · intro hn
      unfold delete_item
      rw [hq]
      show returnItem d = _
      rw [returnItem_none hn]
    · intro hnodup
      unfold delete_item
      rw [eraseFirst_query_none i hnodup]

/-- Witness for the amended C5 theorem: delete echoes the removed row, a
second delete of the same id and a delete of an absent id yield the 404. -/
theorem delete_item_spec_witness :
    (delete_item "a" [⟨"a", some "n", some "d"⟩]).1 = .ok ⟨"a", "n", some "d"⟩ ∧
    delete_item "a" (eraseFirst [⟨"a", some "n", some "d"⟩] "a")
      = (.error (.httpException 404 "Item not found"),
         eraseFirst [⟨"a", some "n", some "d"⟩] "a") ∧
    delete_item "b" [⟨"a", some "n", some "d"⟩]
      = (.error (.httpException 404 "Item not found"), [⟨"a", some "n", some "d"⟩]) :=
  ⟨((delete_item_spec [⟨"a", some "n", some "d"⟩] "a").2
      ⟨"a", some "n", some "d"⟩ rfl).2.1 "n" rfl,
   ((delete_item_spec [⟨"a", some "n", some "d"⟩] "a").2
      ⟨"a", some "n", some "d"⟩ rfl).2.2.2 (by simp),
   (delete_item_spec [⟨"a", some "n", some "d"⟩] "b").1 rfl⟩

/-- C6: list cardinality: for every sequence of creates and deletes that runs
successfully from the empty store (a successful delete is precisely one whose
id is present — created earlier and not yet deleted; success of each create
means its generated id was fresh), the read-all handler on the final store
returns a list with exactly (number of creates) − (number of deletes)
entries. -/
theorem list_cardinality_after_ops (ops : List Op) (db1 : Store)
    (h : runOps [] ops = some db1) :
    ∃ its, read_all_items db1 = .ok its ∧
      its.length + countDeletes ops = countCreates ops := by
  have hlen := runOps_length ops [] db1 h
  have hnm := runOps_named ops [] db1 (by simp) h
  obtain ⟨its, hits, hrel⟩ := buildItems_ok db1 hnm
  refine ⟨its, ?_, ?_⟩
  · unfold read_all_items queryAll
    exact hits
  · have hleq := List.Forall₂.length_eq hrel
    simp only [List.length_nil, Nat.zero_add] at hlen
    omega

set_option maxRecDepth 4000 in
/-- Witness for C6: one create followed by the delete of the created id
(N = 1, M = 1) leaves an empty listing. -/
theorem list_cardinality_after_ops_witness :
    runOps [] [Op.create ⟨"a", some "b"⟩ "1.5",
               Op.delete (generate_id "a" "b" "1.5")] = some [] ∧
    ∃ its, read_all_items [] = .ok its ∧
      its.length + countDeletes [Op.create ⟨"a", some "b"⟩ "1.5",
                                 Op.delete (generate_id "a" "b" "1.5")]
        = countCreates [Op.create ⟨"a", some "b"⟩ "1.5",
                        Op.delete (generate_id "a" "b" "1.5")] :=
  ⟨rfl, list_cardinality_after_ops _ [] rfl⟩

/-- C7 counterexample: on the store holding one row with a null name the
read-all handler fails — the validation error raised while building the
response list — so "for every store state, the read-all handler returns the
sequence of all stored records" is refuted; the failure is still not the 404
branch. -/
theorem read_all_null_name_counterexample :
    read_all_items [⟨"a", none, none⟩] = .error .validationError := rfl

/-- C7 (amended): the 404 "Item not found" branch of read-all is dead code:
any failure of the handler is a validation error, never an `HTTPException`
(a query result is a list, never null); and whenever every stored name is
non-null — every state reachable without a null-name update — read-all
returns exactly the stored records, in order, field for field. -/
theorem read_all_spec (db : Store) :
    (∀ e, read_all_items db = .error e → e = .validationError) ∧
    ((∀ d ∈ db, d.name ≠ none) →
      ∃ its, read_all_items db = .ok its ∧
        List.Forall₂ (fun (d : DBItem) (it : Item) =>
          it.id = d.id ∧ d.name = some it.name ∧ it.description = d.description)
          db its) := by
  constructor
  · intro e hcon
    unfold read_all_items queryAll at hcon
    exact buildItems_error hcon
  · intro h
    obtain ⟨its, hits, hrel⟩ := buildItems_ok db h
    refine ⟨its, ?_, hrel⟩
    unfold read_all_items queryAll
    exact hits

/-- Witness for the amended C7 theorem: the only failure is a validation
error, and a store of named rows lists exactly its rows. -/
theorem read_all_spec_witness :
    HandlerError.validationError = .validationError ∧
    (∃ its, read_all_items [⟨"a", some "n", none⟩] = .ok its ∧
      List.Forall₂ (fun (d : DBItem) (it : Item) =>
        it.id = d.id ∧ d.name = some it.name ∧ it.description = d.description)
        [⟨"a", some "n", none⟩] its) :=
  ⟨(read_all_spec [⟨"a", none, none⟩]).1 .validationError rfl,
   (read_all_spec [⟨"a", some "n", none⟩]).2 (by simp)⟩

/-- C10: atomicity of NotFound: for every store state and every id with no
matching row, the read-one, update and delete handlers each fail with
404 "Item not found" and leave the store exactly as it was — read-one
performs no write at all, and update and delete return the unchanged
store on their error path. -/
theorem notfound_leaves_store_unchanged (db : Store) (i : String) (upd : ItemUpdate)
    (h : queryFirst db i = none) :
    read_item i db = .error (.httpException 404 "Item not found") ∧
    update_item i upd db = (.error (.httpException 404 "Item not found"), db) ∧
    delete_item i db = (.error (.httpException 404 "Item not found"), db) := by
  refine ⟨?_, ?_, ?_⟩
  · unfold read_item
    rw [h]
  · unfold update_item
    rw [h]
  · unfold delete_item
    rw [h]

/-- Witness for C10 at the empty store and a never-issued id. -/
theorem notfound_leaves_store_unchanged_witness :
    read_item "zz" [] = .error (.httpException 404 "Item not found") ∧
    update_item "zz" ⟨none, none⟩ [] = (.error (.httpException 404 "Item not found"), []) ∧
    delete_item "zz" [] = (.error (.httpException 404 "Item not found"), []) :=
  notfound_leaves_store_unchanged [] "zz" ⟨none, none⟩ rfl
